import Mathlib

/-!
# Verification of `render_badged_icon.py` (window-controls plugin)

A shallow embedding of the icon renderer from
`bin/scripts/render_badged_icon.py`.  External effects (filesystem checks,
the `sips` rasterizer, the `defaults` property reader, font loading, text
measurement) are modelled as oracles collected in an `Env` record; drawing
commands are recorded symbolically as lists of `DrawOp`.  The atomic file
writers are modelled over an explicit path-to-bytes map with failure
injection, mirroring the temp-file / rename / cleanup sequence of the
source.
-/

set_option autoImplicit false

/-- RGBA color, one component per channel, as PIL tuples `(r, g, b, a)`. -/
structure Color where
  r : Nat
  g : Nat
  b : Nat
  a : Nat
deriving DecidableEq, Repr

/-- A raster image produced by the external `sips` utility: pixel
dimensions, decoded mode, and an abstract content identifier standing for
the byte content. -/
structure Raster where
  width : Nat
  height : Nat
  mode : String
  content : Nat
deriving DecidableEq, Repr

/-- A font handle as obtained by `ImageFont.truetype` (path and point
size) or the built-in bitmap fallback from `ImageFont.load_default()`. -/
inductive Font where
  | truetype (path : String) (size : Nat)
  | loadDefault
deriving DecidableEq, Repr

/-- A symbolic drawing command, one per PIL `ImageDraw` call in the
source.  Coordinates are integers as in the source. -/
inductive DrawOp where
  | roundedRect (x0 y0 x1 y1 : Int) (radius : Nat) (fill : Option Color)
      (outline : Option Color) (width : Nat)
  | text (x y : Int) (s : String) (fill : Color) (font : Font)
  | line (points : List (Int × Int)) (color : Color) (width : Nat)
  | polygon (points : List (Int × Int)) (color : Color)
  | arc (x0 y0 x1 y1 : Int) (start stop : Nat) (color : Color) (width : Nat)
  | composite (content : Nat) (w h : Nat) (x y : Int)
deriving DecidableEq, Repr

/-- The base layer of an in-memory PIL image: either a solid color fill
(`Image.new`) or the 72x72 LANCZOS-resized conversion of a raster file
(`Image.open(...).convert("RGBA").resize(...)`). -/
inductive ImageBase where
  | solid (c : Color)
  | fromRaster (content : Nat)
deriving DecidableEq, Repr

/-- An in-memory PIL image: dimensions, mode, base layer and the list of
drawing commands applied to it, in order. -/
structure Image where
  width : Nat
  height : Nat
  mode : String
  base : ImageBase
  ops : List DrawOp
deriving DecidableEq, Repr

/-- A text bounding box as returned by `ImageDraw.textbbox`. -/
structure BBox where
  x0 : Int
  y0 : Int
  x1 : Int
  y1 : Int
deriving DecidableEq, Repr

/-- The data finally placed at the output path: either an in-memory image
saved as PNG (`save_png_atomic`) or a raster file copied unmodified
(`copy_file_atomic`). -/
inductive FileData where
  | png (img : Image)
  | raw (r : Raster)
deriving DecidableEq, Repr

/-- Oracles for every external effect the script performs.  `sips src n`
is the result of rasterizing `src` at target size `n`: `none` when the
`sips` invocation fails, `some r` when it succeeds and leaves the valid
decodable raster `r` at the requested destination (the rasterizer contract
of the spec).  It is a pure function of source and size, which encodes the
determinism proviso of the spec. -/
structure Env where
  hasPIL : Bool
  pathExists : String → Bool
  isDir : String → Bool
  defaultsRead : String → String → String
  sips : String → Nat → Option Raster
  truetypeOk : String → Nat → Bool
  textbbox : String → Font → BBox
  pathHome : String
  envHome : Option String

/-! ## Atomic file writers over an explicit filesystem

`save_png_atomic` and `copy_file_atomic` are modelled over a map from
paths to optional byte lists.  `AtomicEnv` injects failures at each
fallible step: temp-file creation, the write into the temp file
(`image.save` / `shutil.copyfile`), the `os.replace` rename, and the
`finally`-block `unlink`. -/

/-- A filesystem: a path is mapped to `some bytes` when a file exists
there, `none` otherwise. -/
def FSmap : Type := String → Option (List Nat)

/-- Point update of a filesystem map. -/
def fsSet (fs : FSmap) (p : String) (v : Option (List Nat)) : FSmap :=
  fun q => if q = p then v else fs q

/-- Failure-injection plan for one atomic write: the fresh name chosen by
`NamedTemporaryFile`, and whether each fallible step raises. -/
structure AtomicEnv where
  tmpName : String
  createFails : Bool
  writeFails : Bool
  replaceFails : Bool
  unlinkFails : Bool
deriving DecidableEq, Repr

/-- Outcome of an atomic write: normal return or a propagated exception. -/
inductive WriteResult where
  | ok
  | error
deriving DecidableEq, Repr

/-- The `finally` block shared by both writers: if the temp file still
exists, try to unlink it, swallowing any unlink failure. -/
def finallyCleanup (e : AtomicEnv) (fs : FSmap) : FSmap :=
  if (fs e.tmpName).isSome then
    if e.unlinkFails then fs else fsSet fs e.tmpName none
  else fs

/-- `save_png_atomic(image, output_path)`: create a fresh temp file in the
destination directory, save the PNG bytes `data` to it, atomically rename
it over `output_path`, and in all cases best-effort-delete a leftover temp
file. -/
def save_png_atomic (e : AtomicEnv) (data : List Nat) (output_path : String)
    (fs : FSmap) : WriteResult × FSmap :=
  if e.createFails then (.error, fs)
  else
    let fs1 := fsSet fs e.tmpName (some [])
    if e.writeFails then (.error, finallyCleanup e fs1)
    else
      let fs2 := fsSet fs1 e.tmpName (some data)
      if e.replaceFails then (.error, finallyCleanup e fs2)
      else
        let fs3 := fsSet (fsSet fs2 output_path (some data)) e.tmpName none
        (.ok, finallyCleanup e fs3)

/-- `copy_file_atomic(source, output_path)`: like `save_png_atomic` but
the temp file receives a copy of the bytes at `source`; the copy raises
when the source file is missing. -/
def copy_file_atomic (e : AtomicEnv) (source output_path : String)
    (fs : FSmap) : WriteResult × FSmap :=
  if e.createFails then (.error, fs)
  else
    let fs1 := fsSet fs e.tmpName (some [])
    match fs1 source with
    | none => (.error, finallyCleanup e fs1)
    | some data =>
      if e.writeFails then (.error, finallyCleanup e fs1)
      else
        let fs2 := fsSet fs1 e.tmpName (some data)
        if e.replaceFails then (.error, finallyCleanup e fs2)
        else
          let fs3 := fsSet (fsSet fs2 output_path (some data)) e.tmpName none
          (.ok, finallyCleanup e fs3)

/-! ## Path helpers

String models of the few `pathlib` operations the script uses: final
component, parent, join, suffix extraction and suffix replacement
(CPython `PurePath.suffix` / `with_suffix` semantics on the final
component). -/

/-- Final path component (`Path.name`). -/
def fileName (p : String) : String := (p.splitOn "/").getLastD ""

/-- Everything before the final path component. -/
def dirName (p : String) : String :=
  String.intercalate "/" ((p.splitOn "/").dropLast)

/-- `Path(p) / c`. -/
def joinPath (p c : String) : String := if p = "" then c else p ++ "/" ++ c

/-- Index of the last dot of a character list, if any. -/
def lastDotIdx (cs : List Char) : Option Nat :=
  (List.range cs.length).reverse.find? (fun i => cs.getD i ' ' == '.')

/-- `Path(p).suffix`: the final component's extension including the dot,
or `""` when there is none (a leading dot or a trailing dot does not count
as an extension separator). -/
def pathSuffix (p : String) : String :=
  let cs := (fileName p).toList
  match lastDotIdx cs with
  | some i =>
    if 0 < i ∧ i + 1 < cs.length then String.mk (cs.drop i) else ""
  | none => ""

/-- `Path(p).with_suffix(suf)`: replace (or append) the final component's
extension. -/
def withSuffix (p suf : String) : String :=
  let newName := (fileName p).dropRight (pathSuffix p).length ++ suf
  let d := dirName p
  if d = "" then newName else d ++ "/" ++ newName

/-! ## Renderer model -/

/-- `KEY_SIZE`. -/
def KEY_SIZE : Nat := 72

/-- The icon-pack directory path relative to a home directory (the tail
of `DEFAULT_ICON_PACK`). -/
def iconPackRel : String :=
  "Library/Application Support/com.elgato.StreamDeck/Plugins/com.elgato.keycreator.sdPlugin/static/com.elgato.defaulticonswhite.sdIconPack/icons"

/-- `DEFAULT_ICON_PACK`, anchored at `Path.home()`. -/
def DEFAULT_ICON_PACK (env : Env) : String := joinPath env.pathHome iconPackRel

/-- `CONTROL_ICON_FILES` role-to-filename table. -/
def CONTROL_ICON_FILES (role : String) : Option String :=
  if role = "home" then some "IconHome-White.svg"
  else if role = "page_prev" then some "IconChevronsLeft-White.svg"
  else if role = "page_next" then some "IconChevronsRight-White.svg"
  else if role = "move_left" then some "IconChevronLeft-White.svg"
  else if role = "move_right" then some "IconChevronRight-White.svg"
  else if role = "mode_back" then some "IconUndo-White.svg"
  else if role = "refresh" then some "IconRefresh-White.svg"
  else none

/-- Fixed path of the generic application icon from CoreTypes. -/
def genericIconPath : String :=
  "/System/Library/CoreServices/CoreTypes.bundle/Contents/Resources/GenericApplicationIcon.icns"

/-- Fixed path of the preferred badge/label font. -/
def arialPath : String := "/System/Library/Fonts/Supplemental/Arial Bold.ttf"

/-- `resolve_app_icon_icns(app_path)`: read `CFBundleIconFile` via
`defaults`, coerce the name to an `.icns` extension and check existence;
otherwise try the two conventional fallback names. -/
def resolve_app_icon_icns (env : Env) (app_path : String) : Option String :=
  let info_plist := joinPath (joinPath app_path "Contents") "Info"
  let icon_file := env.defaultsRead info_plist "CFBundleIconFile"
  let resources := joinPath (joinPath app_path "Contents") "Resources"
  let viaPlist : Option String :=
    if icon_file ≠ "" then
      let icon_path := joinPath resources icon_file
      let icon_path :=
        if (pathSuffix icon_path).toLower ≠ ".icns" then
          withSuffix icon_path ".icns"
        else icon_path
      if env.pathExists icon_path then some icon_path else none
    else none
  match viaPlist with
  | some p => some p
  | none =>
    if env.pathExists (joinPath resources "AppIcon.icns") then
      some (joinPath resources "AppIcon.icns")
    else if env.pathExists (joinPath resources "app.icns") then
      some (joinPath resources "app.icns")
    else none

/-- `extract_app_icon_png(app_path, output_png)`: rasterize the bundle's
icon at `KEY_SIZE`, falling back to the generic CoreTypes icon.  Returns
the raster placed at the output (the source returns `True` and leaves the
file on disk); `none` models returning `False`.  The first phase (the
bundle's own icon) is split out as `extract_from_app`. -/
def extract_from_app (env : Env) (app_path : String) : Option Raster :=
  if env.pathExists app_path && env.isDir app_path then
    match resolve_app_icon_icns env app_path with
    | some icns =>
      if env.pathExists icns then env.sips icns KEY_SIZE else none
    | none => none
  else none

/-- The generic-icon fallback tail of `extract_app_icon_png`. -/
def extract_app_icon_png (env : Env) (app_path : String) : Option Raster :=
  match extract_from_app env app_path with
  | some r => some r
  | none =>
    if env.pathExists genericIconPath then env.sips genericIconPath KEY_SIZE
    else none

/-- Font selection shared by badge and label drawing: `ImageFont.truetype`
on the fixed Arial Bold path at the given size, else the built-in default
font. -/
def getFont (env : Env) (size : Nat) : Font :=
  if env.truetypeOk arialPath size then .truetype arialPath size
  else .loadDefault

/-- Badge fill color selection from the exact badge string. -/
def badgeFill (badge : String) : Color :=
  if badge = "1" then ⟨21, 108, 196, 245⟩
  else if badge = "2" then ⟨0, 138, 98, 245⟩
  else ⟨23, 130, 153, 245⟩

/-- `draw_badge(image, badge)`: no-op on an empty badge; otherwise append
the rounded badge box and the badge text to the image's op list. -/
def draw_badge (env : Env) (image : Image) (badge : String) : Image :=
  if badge = "" then image
  else
    let font_size := if badge.length = 1 then 11 else 9
    let font := getFont env font_size
    let bb := env.textbbox badge font
    let text_w := bb.x1 - bb.x0
    let text_h := bb.y1 - bb.y0
    let badge_w := max 18 (text_w + 10)
    let badge_h : Int := 18
    let x1 : Int := (KEY_SIZE : Int) - 4
    let x0 := x1 - badge_w
    let y0 : Int := 4
    let y1 := y0 + badge_h
    let fill := badgeFill badge
    let tx := x0 + Int.fdiv (badge_w - text_w) 2
    let ty := y0 + Int.fdiv (badge_h - text_h) 2 - 1
    { image with ops := image.ops ++
        [.roundedRect x0 y0 x1 y1 5 (some fill) (some ⟨255, 255, 255, 210⟩) 1,
         .text tx ty badge ⟨255, 255, 255, 255⟩ font] }

/-- `draw_arrow_icon(draw, direction, color)`. -/
def draw_arrow_icon (direction : String) (color : Color) : List DrawOp :=
  let y : Int := (KEY_SIZE : Int) / 2
  if direction = "left" then
    [.line [(50, y), (26, y)] color 6,
     .polygon [(22, y), (34, y - 10), (34, y + 10)] color]
  else
    [.line [(22, y), (46, y)] color 6,
     .polygon [(50, y), (38, y - 10), (38, y + 10)] color]

/-- `draw_back_icon(draw, color)`. -/
def draw_back_icon (color : Color) : List DrawOp :=
  [.line [(52, 20), (30, 20), (30, 50)] color 6,
   .polygon [(18, 20), (32, 10), (32, 30)] color]

/-- `draw_refresh_icon(draw, color)`. -/
def draw_refresh_icon (color : Color) : List DrawOp :=
  [.arc 16 16 56 56 30 325 color 6,
   .polygon [(54, 18), (60, 30), (47, 28)] color]

/-- `resolve_control_icon_svg(role)`: look up the role's icon filename,
then probe the default icon pack and, failing that, the same relative
path under the `HOME` environment variable (skipped when `HOME` is unset
or empty). -/
def resolve_control_icon_svg (env : Env) (role : String) : Option String :=
  match CONTROL_ICON_FILES role with
  | none => none
  | some filename =>
    let icon_path := joinPath (DEFAULT_ICON_PACK env) filename
    if env.pathExists icon_path then some icon_path
    else
      match env.envHome with
      | some home =>
        if home ≠ "" then
          let fallback := joinPath (joinPath home iconPackRel) filename
          if env.pathExists fallback then some fallback else none
        else none
      | none => none

/-- `paste_svg_icon(image, svg_path)`: rasterize the SVG at 44px and
alpha-composite it centered; any failure leaves the image unchanged and
reports `none` so the caller can fall back. -/
def paste_svg_icon (env : Env) (image : Image) (svg_path : String) :
    Option Image :=
  if env.hasPIL then
    match env.sips svg_path 44 with
    | none => none
    | some icon =>
      let x := Int.fdiv ((KEY_SIZE : Int) - icon.width) 2
      let y := Int.fdiv ((KEY_SIZE : Int) - icon.height) 2
      some { image with ops := image.ops ++
        [.composite icon.content icon.width icon.height x y] }
  else none

/-- Solid opaque black key canvas (`Image.new("RGBA", (72, 72), black)`). -/
def blackCanvas : Image :=
  ⟨KEY_SIZE, KEY_SIZE, "RGBA", .solid ⟨0, 0, 0, 255⟩, []⟩

/-- The selection-ring drawing command of `render_app_mode`. -/
def ringOp : DrawOp :=
  .roundedRect 2 2 ((KEY_SIZE : Int) - 3) ((KEY_SIZE : Int) - 3) 9 none
    (some ⟨255, 214, 10, 255⟩) 3

/-- `render_app_mode(app_path, badge, selected, output_path)`: extract the
app icon (exit 2 on failure); without the raster library copy the
extracted file to the output unmodified; otherwise resize to 72x72 RGBA,
optionally draw the selection ring, draw the badge, and save.  The result
pairs the exit code with the data written to the output path, if any. -/
def render_app_mode (env : Env) (app_path badge : String) (selected : Bool) :
    Nat × Option FileData :=
  match extract_app_icon_png env app_path with
  | none => (2, none)
  | some r =>
    if env.hasPIL then
      let image : Image := ⟨KEY_SIZE, KEY_SIZE, "RGBA", .fromRaster r.content, []⟩
      let image :=
        if selected then { image with ops := image.ops ++ [ringOp] } else image
      let image := draw_badge env image badge
      (0, some (.png image))
    else (0, some (.raw r))

/-- `default_control_label(role)`. -/
def default_control_label (role : String) : String :=
  if role = "page_prev" then "<"
  else if role = "page_next" then ">"
  else if role = "refresh" then "R"
  else if role = "mode_back" then "BACK"
  else if role = "move_left" then "LEFT"
  else if role = "move_right" then "RIGHT"
  else if role = "selected_preview" then "APP"
  else role.toUpper

/-- Fixed white foreground of the procedural control glyphs. -/
def ICON_COLOR : Color := ⟨255, 255, 255, 255⟩

/-- The procedural fallback ops of `render_control_mode`: the role's
glyph, or the centered text label for roles without one. -/
def controlFallbackOps (env : Env) (role text : String) : List DrawOp :=
  if role = "page_prev" then draw_arrow_icon "left" ICON_COLOR
  else if role = "page_next" then draw_arrow_icon "right" ICON_COLOR
  else if role = "move_left" then draw_arrow_icon "left" ICON_COLOR
  else if role = "move_right" then draw_arrow_icon "right" ICON_COLOR
  else if role = "mode_back" then draw_back_icon ICON_COLOR
  else if role = "refresh" then draw_refresh_icon ICON_COLOR
  else
    let font_size := if text.length ≤ 4 then 18 else 14
    let font := getFont env font_size
    let bb := env.textbbox text font
    let text_w := bb.x1 - bb.x0
    let text_h := bb.y1 - bb.y0
    let tx := Int.fdiv ((KEY_SIZE : Int) - text_w) 2
    let ty := Int.fdiv ((KEY_SIZE : Int) - text_h) 2
    [.text tx ty text ICON_COLOR font]

/-- `render_control_mode(role, label, output_path)`: without the raster
library degrade to `render_app_mode("", "", False, ...)`; role `idle` is a
plain black canvas; otherwise paste the resolved vector icon, or fall
back to the procedural glyph / centered label. -/
def render_control_mode (env : Env) (role label : String) :
    Nat × Option FileData :=
  if env.hasPIL then
    if role = "idle" then (0, some (.png blackCanvas))
    else
      let text := if label = "" then default_control_label role else label
      let image := blackCanvas
      let pasted : Option Image :=
        match resolve_control_icon_svg env role with
        | some svg => paste_svg_icon env image svg
        | none => none
      match pasted with
      | some img => (0, some (.png img))
      | none =>
        (0, some (.png { image with
          ops := image.ops ++ controlFallbackOps env role text }))
  else render_app_mode env "" "" false

/-- `main(argv)` (named `script_main` since Lean reserves `main`): argument-count and mode dispatch.  The result pairs the
exit code with the output path and data written there, if any. -/
def script_main (env : Env) (argv : List String) :
    Nat × Option (String × FileData) :=
  if argv.length < 2 then (1, none)
  else if argv.getD 1 "" = "app" then
    if argv.length < 6 then (1, none)
    else
      ((render_app_mode env (argv.getD 2 "") (argv.getD 3 "")
          (argv.getD 4 "" == "1")).1,
       (render_app_mode env (argv.getD 2 "") (argv.getD 3 "")
          (argv.getD 4 "" == "1")).2.map (fun d => (argv.getD 5 "", d)))
  else if argv.getD 1 "" = "control" then
    if argv.length < 5 then (1, none)
    else
      ((render_control_mode env (argv.getD 2 "") (argv.getD 3 "")).1,
       (render_control_mode env (argv.getD 2 "") (argv.getD 3 "")).2.map
         (fun d => (argv.getD 4 "", d)))
  else (1, none)

/-! ## Derived definitions used in the statements -/

def outputIs72RGBA : FileData → Bool
  | .png img => img.width == 72 && img.height == 72 && img.mode == "RGBA"
  | .raw r => r.width == 72 && r.height == 72 && r.mode == "RGBA"

/-- The badge drawing as the claim words it: font size from badge length,
box geometry anchored top-right, fill from the exact badge value.  To be
compared with `draw_badge`, which is translated from the source. -/
def drawBadgeSpecOps (env : Env) (badge : String) : List DrawOp :=
  let fontSize := if badge.length = 1 then 11 else 9
  let font := getFont env fontSize
  let bb := env.textbbox badge font
  let w := bb.x1 - bb.x0
  let h := bb.y1 - bb.y0
  let bw := max 18 (w + 10)
  let fill : Color :=
    if badge = "1" then ⟨21, 108, 196, 245⟩
    else if badge = "2" then ⟨0, 138, 98, 245⟩
    else ⟨23, 130, 153, 245⟩
  [.roundedRect (68 - bw) 4 68 22 5 (some fill) (some ⟨255, 255, 255, 210⟩) 1,
   .text (68 - bw + Int.fdiv (bw - w) 2) (4 + Int.fdiv (18 - h) 2 - 1) badge
     ⟨255, 255, 255, 255⟩ font]

def glyphRoles : List String :=
  ["page_prev", "page_next", "move_left", "move_right", "mode_back", "refresh"]

/-- The pasted-icon output of `render_control_mode` for a given raster. -/
def pastedOutput (icon : Raster) : Nat × Option FileData :=
  let op := DrawOp.composite icon.content icon.width icon.height
    (Int.fdiv ((KEY_SIZE : Int) - icon.width) 2)
    (Int.fdiv ((KEY_SIZE : Int) - icon.height) 2)
  (0, some (.png { blackCanvas with ops := blackCanvas.ops ++ [op] }))

/-- The procedural-fallback output of `render_control_mode`. -/
def fallbackOutput (env : Env) (role label : String) : Nat × Option FileData :=
  let t := if label = "" then default_control_label role else label
  (0, some (.png { blackCanvas with ops := blackCanvas.ops ++ controlFallbackOps env role t }))

/-! ## Concrete environments for witnesses and counterexamples -/

/-- A fully-functional environment: raster library present, every path
exists, `sips` always succeeds with a square RGBA raster of the requested
size, the preferred font loads, and text measures 10x8. -/
def envFull : Env :=
  { hasPIL := true, pathExists := fun _ => true, isDir := fun _ => true,
    defaultsRead := fun _ _ => "MyIcon.png",
    sips := fun _ n => some ⟨n, n, "RGBA", 5⟩,
    truetypeOk := fun _ _ => true, textbbox := fun _ _ => ⟨0, 0, 10, 8⟩,
    pathHome := "/Users/u", envHome := some "/Users/u" }

/-- A fully-degraded environment: no raster library, no file exists,
`sips` always fails. -/
def envNoIcons : Env :=
  { hasPIL := false, pathExists := fun _ => false, isDir := fun _ => false,
    defaultsRead := fun _ _ => "", sips := fun _ _ => none,
    truetypeOk := fun _ _ => false, textbbox := fun _ _ => ⟨0, 0, 0, 0⟩,
    pathHome := "/u", envHome := none }

/-- Raster library unavailable but the external rasterizer works, and its
aspect-fit output for the generic icon is 72x36 RGB. -/
def envCopyOnly : Env :=
  { hasPIL := false, pathExists := fun _ => true, isDir := fun _ => true,
    defaultsRead := fun _ _ => "", sips := fun _ _ => some ⟨72, 36, "RGB", 9⟩,
    truetypeOk := fun _ _ => false, textbbox := fun _ _ => ⟨0, 0, 0, 0⟩,
    pathHome := "/u", envHome := none }

/-- The image produced by the C6 witness render: resized app icon with
only the selection ring drawn. -/
def imgRingW : Image := ⟨72, 72, "RGBA", .fromRaster 5, [ringOp]⟩

/-- Concrete failure plan used by the C2 witness. -/
def atomicEnvW : AtomicEnv :=
  { tmpName := ".out.png.X.tmp", createFails := false, writeFails := true
    replaceFails := false, unlinkFails := false }

/-- Concrete starting filesystem used by the C2 witness: the destination
already holds the bytes `[7, 7]`. -/
def fsW : FSmap := fun p => if p = "out.png" then some [7, 7] else none

/-! ## Theorems -/

theorem fsSet_ne (fs : FSmap) (p q : String) (v : Option (List Nat))
    (h : q ≠ p) : fsSet fs p v q = fs q := by
  simp [fsSet, h]

theorem finallyCleanup_ne (e : AtomicEnv) (fs : FSmap) (q : String)
    (h : q ≠ e.tmpName) : finallyCleanup e fs q = fs q := by
  unfold finallyCleanup
  split
  · split
    · rfl
    · exact fsSet_ne fs e.tmpName q none h
  · rfl

/-- Claim C2: if a `save_png_atomic` or `copy_file_atomic` call fails after
the temporary file is created but before the rename (write failure,
rename failure, or — for the copy — missing source), then the exception
propagates as the result, the destination's bytes are unchanged, and,
whenever the best-effort unlink does not itself fail, the temporary file
is removed; an unlink failure is swallowed and never changes the
propagated result. -/
theorem atomic_write_preserves_destination
    (e : AtomicEnv) (data : List Nat) (src dest : String) (fs : FSmap)
    (hdest : e.tmpName ≠ dest) (hc : e.createFails = false) :
    ((e.writeFails = true ∨ e.replaceFails = true) →
      (save_png_atomic e data dest fs).1 = .error ∧
      (save_png_atomic e data dest fs).2 dest = fs dest ∧
      (e.unlinkFails = false →
        (save_png_atomic e data dest fs).2 e.tmpName = none))
    ∧ (e.tmpName ≠ src →
      (fs src = none ∨ e.writeFails = true ∨ e.replaceFails = true) →
      (copy_file_atomic e src dest fs).1 = .error ∧
      (copy_file_atomic e src dest fs).2 dest = fs dest ∧
      (e.unlinkFails = false →
        (copy_file_atomic e src dest fs).2 e.tmpName = none)) := by
  have hdest' : dest ≠ e.tmpName := fun h => hdest h.symm
  constructor
  · intro hfail
    unfold save_png_atomic
    rcases hw : e.writeFails with _ | _
    · rcases hr : e.replaceFails with _ | _
      · rcases hfail with h | h
        · rw [hw] at h; exact absurd h (by simp)
        · rw [hr] at h; exact absurd h (by simp)
      · refine ⟨by simp [hc, hw, hr], ?_, ?_⟩
        · simp only [hc, hw, hr, Bool.false_eq_true, if_false, if_true]
          rw [finallyCleanup_ne e _ dest hdest']
          simp [fsSet, hdest']
        · intro hu
          simp only [hc, hw, hr, Bool.false_eq_true, if_false, if_true]
          unfold finallyCleanup
          simp [fsSet, hu]
    · refine ⟨by simp [hc, hw], ?_, ?_⟩
      · simp only [hc, hw, Bool.false_eq_true, if_false, if_true]
        rw [finallyCleanup_ne e _ dest hdest']
        simp [fsSet, hdest']
      · intro hu
        simp only [hc, hw, Bool.false_eq_true, if_false, if_true]
        unfold finallyCleanup
        simp [fsSet, hu]
  · intro hsrc hfail
    have hsrc' : src ≠ e.tmpName := fun h => hsrc h.symm
    unfold copy_file_atomic
    rcases hs : (fsSet fs e.tmpName (some []) src) with _ | data'
    · refine ⟨by simp [hc, hs], ?_, ?_⟩
      · simp only [hc, Bool.false_eq_true, if_false, hs]
        rw [finallyCleanup_ne e _ dest hdest']
        simp [fsSet, hdest']
      · intro hu
        simp only [hc, Bool.false_eq_true, if_false, hs]
        unfold finallyCleanup
        simp [fsSet, hu]
    · rw [fsSet_ne fs e.tmpName src _ hsrc'] at hs
      have hfail' : e.writeFails = true ∨ e.replaceFails = true := by
        rcases hfail with h | h
        · rw [h] at hs; exact absurd hs (by simp)
        · exact h
      rcases hw : e.writeFails with _ | _
      · rcases hr : e.replaceFails with _ | _
        · rcases hfail' with h | h
          · rw [hw] at h; exact absurd h (by simp)
          · rw [hr] at h; exact absurd h (by simp)
        · refine ⟨?_, ?_, ?_⟩
          · simp [hc, hw, hr, fsSet_ne fs e.tmpName src _ hsrc', hs]
          · simp only [hc, Bool.false_eq_true, if_false,
              fsSet_ne fs e.tmpName src (some []) hsrc', hs, hw, hr, if_true]
            rw [finallyCleanup_ne e _ dest hdest']
            simp [fsSet, hdest']
          · intro hu
            simp only [hc, Bool.false_eq_true, if_false,
              fsSet_ne fs e.tmpName src (some []) hsrc', hs, hw, hr, if_true]
            unfold finallyCleanup
            simp [fsSet, hu]
      · refine ⟨?_, ?_, ?_⟩
        · simp [hc, hw, fsSet_ne fs e.tmpName src _ hsrc', hs]
        · simp only [hc, Bool.false_eq_true, if_false,
            fsSet_ne fs e.tmpName src (some []) hsrc', hs, hw, if_true]
          rw [finallyCleanup_ne e _ dest hdest']
          simp [fsSet, hdest']
        · intro hu
          simp only [hc, Bool.false_eq_true, if_false,
            fsSet_ne fs e.tmpName src (some []) hsrc', hs, hw, if_true]
          unfold finallyCleanup
          simp [fsSet, hu]

/-- Witness for C2 at a concrete failure plan: a write failure after temp
creation propagates as `.error`, leaves `out.png` holding its old bytes,
and removes the temp file. -/
theorem atomic_write_preserves_destination_witness :
    (atomicEnvW.tmpName ≠ "out.png") ∧
    ((save_png_atomic atomicEnvW [1, 2] "out.png" fsW).1 = .error ∧
      (save_png_atomic atomicEnvW [1, 2] "out.png" fsW).2 "out.png" =
        fsW "out.png" ∧
      (atomicEnvW.unlinkFails = false →
        (save_png_atomic atomicEnvW [1, 2] "out.png" fsW).2
          atomicEnvW.tmpName = none)) :=
  ⟨by decide,
    (atomic_write_preserves_destination atomicEnvW [1, 2] "src.png" "out.png"
      fsW (by decide) rfl).1 (Or.inl rfl)⟩

theorem script_main_app (env : Env) (p a b s out : String) (rest : List String) :
    script_main env (p :: "app" :: a :: b :: s :: out :: rest) =
      ((render_app_mode env a b (s == "1")).1,
       (render_app_mode env a b (s == "1")).2.map (fun d => (out, d))) := by
  unfold script_main
  simp only [List.getD]
  simp
  rw [if_neg (by omega), if_neg (by omega)]

theorem script_main_control (env : Env) (p role label out : String)
    (rest : List String) :
    script_main env (p :: "control" :: role :: label :: out :: rest) =
      ((render_control_mode env role label).1,
       (render_control_mode env role label).2.map (fun d => (out, d))) := by
  unfold script_main
  simp
  rw [if_neg (by omega), if_neg (by omega)]

theorem draw_badge_shape (env : Env) (img : Image) (b : String) :
    ∃ l, draw_badge env img b = { img with ops := img.ops ++ l } := by
  unfold draw_badge
  split
  · exact ⟨[], by simp⟩
  · exact ⟨_, rfl⟩

theorem ringOp_mem_draw_badge (env : Env) (img : Image) (b : String) :
    ringOp ∈ (draw_badge env img b).ops ↔ ringOp ∈ img.ops := by
  unfold draw_badge
  split
  · exact Iff.rfl
  · simp [ringOp]

theorem control_shape (env : Env) (role label : String)
    (hP : env.hasPIL = true) :
    ∃ ops, render_control_mode env role label =
      (0, some (.png ⟨KEY_SIZE, KEY_SIZE, "RGBA", .solid ⟨0, 0, 0, 255⟩, ops⟩)) := by
  unfold render_control_mode
  simp only [hP, if_true]
  by_cases hrole : role = "idle"
  · exact ⟨[], by simp [hrole, blackCanvas]⟩
  · rw [if_neg hrole]
    rcases hres : resolve_control_icon_svg env role with _ | svg
    · exact ⟨_, rfl⟩
    · unfold paste_svg_icon
      simp only [hP, if_true]
      rcases hs : env.sips svg 44 with _ | icon
      · exact ⟨_, rfl⟩
      · exact ⟨_, rfl⟩

theorem app_shape (env : Env) (a b : String) (s : Bool)
    (hP : env.hasPIL = true) :
    render_app_mode env a b s = (2, none) ∨
      ∃ c ops, render_app_mode env a b s =
        (0, some (.png ⟨KEY_SIZE, KEY_SIZE, "RGBA", .fromRaster c, ops⟩)) := by
  unfold render_app_mode
  rcases hx : extract_app_icon_png env a with _ | r
  · exact Or.inl rfl
  · right
    simp only [hP, if_true]
    rcases s with _ | _
    · simp only [Bool.false_eq_true, if_false]
      obtain ⟨l, hl⟩ := draw_badge_shape env
        ⟨KEY_SIZE, KEY_SIZE, "RGBA", .fromRaster r.content, []⟩ b
      rw [hl]
      exact ⟨r.content, l, rfl⟩
    · simp only [if_true]
      obtain ⟨l, hl⟩ := draw_badge_shape env
        ⟨KEY_SIZE, KEY_SIZE, "RGBA", .fromRaster r.content, [] ++ [ringOp]⟩ b
      rw [hl]
      exact ⟨r.content, [ringOp] ++ l, rfl⟩

theorem app_noPIL_shape (env : Env) (a b : String) (s : Bool)
    (hP : env.hasPIL = false) :
    render_app_mode env a b s = (2, none) ∨
      ∃ r, render_app_mode env a b s = (0, some (.raw r)) := by
  unfold render_app_mode
  rcases hx : extract_app_icon_png env a with _ | r
  · exact Or.inl rfl
  · right
    simp only [hP, Bool.false_eq_true, if_false]
    exact ⟨r, rfl⟩

theorem render_control_mode_noPIL (env : Env) (role label : String)
    (hP : env.hasPIL = false) :
    render_control_mode env role label = render_app_mode env "" "" false := by
  unfold render_control_mode
  simp [hP]

/-- Claim C3 (amended): with the raster library available, every
invocation that exits 0 writes a PNG of exactly 72x72 pixels in RGBA
mode; without it, the successful output is the externally rasterized file
copied unmodified, whose dimensions and mode are whatever the rasterizer
produced. -/
theorem success_output_dimensions :
    (∀ (env : Env) (argv : List String) (out : String) (d : FileData),
      env.hasPIL = true → script_main env argv = (0, some (out, d)) →
      outputIs72RGBA d = true) ∧
    (∀ (env : Env) (argv : List String) (out : String) (d : FileData),
      env.hasPIL = false → script_main env argv = (0, some (out, d)) →
      ∃ r, d = FileData.raw r) := by
  constructor
  · intro env argv out d hP h
    unfold script_main at h
    split at h
    · simp at h
    · split at h
      · split at h
        · simp at h
        · rcases app_shape env (argv.getD 2 "") (argv.getD 3 "")
            (argv.getD 4 "" == "1") hP with h2 | ⟨c, ops, h2⟩
          · rw [h2] at h; simp at h
          · rw [h2] at h
            simp at h
            rw [← h.2]
            simp [outputIs72RGBA, KEY_SIZE]
      · split at h
        · split at h
          · simp at h
          · obtain ⟨ops, h2⟩ :=
              control_shape env (argv.getD 2 "") (argv.getD 3 "") hP
            rw [h2] at h
            simp at h
            rw [← h.2]
            simp [outputIs72RGBA, KEY_SIZE]
        · simp at h
  · intro env argv out d hP h
    unfold script_main at h
    split at h
    · simp at h
    · split at h
      · split at h
        · simp at h
        · rcases app_noPIL_shape env (argv.getD 2 "") (argv.getD 3 "")
            (argv.getD 4 "" == "1") hP with h2 | ⟨r, h2⟩
          · rw [h2] at h; simp at h
          · rw [h2] at h
            simp at h
            exact ⟨r, h.2.symm⟩
      · split at h
        · split at h
          · simp at h
          · rw [render_control_mode_noPIL env _ _ hP] at h
            rcases app_noPIL_shape env "" "" false hP with h2 | ⟨r, h2⟩
            · rw [h2] at h; simp at h
            · rw [h2] at h
              simp at h
              exact ⟨r, h.2.symm⟩
        · simp at h

/-- Claim C4 (amended): every invocation with fewer arguments than the
mode requires (6 including the program name for "app", 5 for "control"),
or whose mode is neither "app" nor "control", exits 1 with no file
created or modified; extra trailing arguments are not rejected. -/
theorem malformed_args_exit1 :
    ∀ (env : Env) (argv : List String),
      (argv.length < 2 ∨
        (argv.getD 1 "" = "app" ∧ argv.length < 6) ∨
        (argv.getD 1 "" = "control" ∧ argv.length < 5) ∨
        (argv.getD 1 "" ≠ "app" ∧ argv.getD 1 "" ≠ "control")) →
      script_main env argv = (1, none) := by
  intro env argv h
  unfold script_main
  by_cases h2 : argv.length < 2
  · rw [if_pos h2]
  · rw [if_neg h2]
    rcases h with h | ⟨hm, hl⟩ | ⟨hm, hl⟩ | ⟨ha, hc⟩
    · exact absurd h h2
    · rw [hm]
      rw [if_pos rfl, if_pos hl]
    · rw [hm]
      rw [if_neg (by decide), if_pos rfl, if_pos hl]
    · rw [if_neg ha, if_neg hc]

/-- Claim C1 (amended): with the raster library available, every
control-mode invocation with at least role, label and output arguments
exits 0, whatever the icon resolution and rasterizer oracles do; when the
raster library is unavailable, control mode degrades to the app-mode
fallback, which exits 0 or, when no icon source at all is obtainable,
2. -/
theorem control_mode_exit_codes :
    (∀ (env : Env) (p role label out : String) (rest : List String),
      env.hasPIL = true →
      (script_main env (p :: "control" :: role :: label :: out :: rest)).1 = 0) ∧
    (∀ (env : Env) (role label : String),
      env.hasPIL = false →
      (render_control_mode env role label).1 = 0 ∨
        (render_control_mode env role label).1 = 2) := by
  constructor
  · intro env p role label out rest hP
    rw [script_main_control]
    obtain ⟨ops, h⟩ := control_shape env role label hP
    rw [h]
  · intro env role label hP
    rw [render_control_mode_noPIL env role label hP]
    rcases app_noPIL_shape env "" "" false hP with h | ⟨r, h⟩
    · right; rw [h]
    · left; rw [h]

theorem extract_app_icon_none (env : Env) (a : String)
    (hres : ∀ q, resolve_app_icon_icns env a = some q →
      env.sips q KEY_SIZE = none)
    (hgen : env.pathExists genericIconPath = false ∨
      env.sips genericIconPath KEY_SIZE = none) :
    extract_app_icon_png env a = none := by
  have h1 : extract_from_app env a = none := by
    unfold extract_from_app
    split
    · rcases hr : resolve_app_icon_icns env a with _ | q
      · simp only [hr]
      · simp only [hr]
        split
        · exact hres q hr
        · rfl
    · rfl
  unfold extract_app_icon_png
  rw [h1]
  show (if env.pathExists genericIconPath then
    env.sips genericIconPath KEY_SIZE else none) = none
  rcases hgen with h | h
  · simp [h]
  · split
    · exact h
    · rfl

/-- Claim C5: when neither the bundle's icon (unresolvable or
unrasterizable) nor the generic system icon (missing or unrasterizable)
yields a raster, app mode exits 2 and writes no output. -/
theorem app_mode_no_icon_exit2 :
    ∀ (env : Env) (p a b s out : String) (rest : List String),
      (∀ q, resolve_app_icon_icns env a = some q →
        env.sips q KEY_SIZE = none) →
      (env.pathExists genericIconPath = false ∨
        env.sips genericIconPath KEY_SIZE = none) →
      script_main env (p :: "app" :: a :: b :: s :: out :: rest) = (2, none) := by
  intro env p a b s out rest hres hgen
  rw [script_main_app]
  unfold render_app_mode
  rw [extract_app_icon_none env a hres hgen]
  rfl

/-- Claim C8 (amended): with the raster library available, every
well-formed control-mode invocation with role "idle" writes a 72x72
fully-opaque solid black RGBA image with no drawing operations,
regardless of the label argument. -/
theorem control_idle_black :
    ∀ (env : Env) (p label out : String) (rest : List String),
      env.hasPIL = true →
      script_main env (p :: "control" :: "idle" :: label :: out :: rest) =
        (0, some (out, .png ⟨72, 72, "RGBA", .solid ⟨0, 0, 0, 255⟩, []⟩)) := by
  intro env p label out rest hP
  rw [script_main_control]
  unfold render_control_mode
  simp [hP, blackCanvas, KEY_SIZE]

/-- Claim C9: rendering is deterministic: for a fixed environment
(identical rasterizer outputs and filesystem state) and fixed inputs,
runs targeting two different output paths produce the same exit code and
byte-identical output data. -/
theorem render_deterministic :
    ∀ (env : Env) (p a b s o1 o2 role label : String),
      ((script_main env [p, "app", a, b, s, o1]).1 =
        (script_main env [p, "app", a, b, s, o2]).1 ∧
       (script_main env [p, "app", a, b, s, o1]).2.map Prod.snd =
        (script_main env [p, "app", a, b, s, o2]).2.map Prod.snd) ∧
      ((script_main env [p, "control", role, label, o1]).1 =
        (script_main env [p, "control", role, label, o2]).1 ∧
       (script_main env [p, "control", role, label, o1]).2.map Prod.snd =
        (script_main env [p, "control", role, label, o2]).2.map Prod.snd) := by
  intro env p a b s o1 o2 role label
  rw [script_main_app env p a b s o1 [], script_main_app env p a b s o2 [],
    script_main_control env p role label o1 [],
    script_main_control env p role label o2 []]
  refine ⟨⟨rfl, ?_⟩, ⟨rfl, ?_⟩⟩
  · rcases (render_app_mode env a b (s == "1")).2 with _ | d <;> rfl
  · rcases (render_control_mode env role label).2 with _ | d <;> rfl

/-- Claim C6: in every successful app-mode render with the raster
library available, the selection ring operation (rounded rectangle inset
2px, corner radius 9, stroke width 3, color RGBA(255,214,10,255)) is in
the output exactly when the selected-flag argument is "1", independent of
the badge value and app icon content. -/
theorem selection_ring_iff_selected :
    ∀ (env : Env) (p a b s out : String) (rest : List String) (img : Image),
      env.hasPIL = true →
      script_main env (p :: "app" :: a :: b :: s :: out :: rest) =
        (0, some (out, .png img)) →
      (ringOp ∈ img.ops ↔ s = "1") := by
  intro env p a b s out rest img hP h
  rw [script_main_app] at h
  unfold render_app_mode at h
  rcases hx : extract_app_icon_png env a with _ | r
  · rw [hx] at h; simp at h
  · rw [hx] at h
    rcases hs : (s == "1") with _ | _
    · rw [hs] at h
      simp only [hP, if_true, Bool.false_eq_true, if_false] at h
      simp at h
      constructor
      · intro hmem
        rw [← h, ringOp_mem_draw_badge] at hmem
        simp at hmem
      · intro h1
        rw [h1] at hs
        simp at hs
    · rw [hs] at h
      simp only [hP, if_true] at h
      simp at h
      constructor
      · intro _; exact eq_of_beq hs
      · intro _
        rw [← h, ringOp_mem_draw_badge]
        simp

/-- Claim C7: drawing an empty badge leaves the canvas unchanged; a
non-empty badge appends exactly the operations described by the claim
(`drawBadgeSpecOps`): font size 11 for one character else 9, box height
18 and width max(18, text width + 10) anchored 4px from the top and
right edges, fill RGBA(21,108,196,245) for "1", RGBA(0,138,98,245) for
"2", RGBA(23,130,153,245) otherwise. -/
theorem draw_badge_spec :
    ∀ (env : Env) (img : Image) (badge : String),
      draw_badge env img "" = img ∧
      (badge ≠ "" → draw_badge env img badge =
        { img with ops := img.ops ++ drawBadgeSpecOps env badge }) := by
  intro env img badge
  constructor
  · simp [draw_badge]
  · intro hb
    unfold draw_badge drawBadgeSpecOps badgeFill
    rw [if_neg hb]
    rfl


theorem controlFallbackOps_glyph (env : Env) (role t1 t2 : String)
    (h : role ∈ glyphRoles) :
    controlFallbackOps env role t1 = controlFallbackOps env role t2 := by
  simp [glyphRoles] at h
  rcases h with rfl | rfl | rfl | rfl | rfl | rfl <;> rfl

theorem controlFallbackOps_nonglyph (env : Env) (role t : String)
    (h : role ∉ glyphRoles) :
    controlFallbackOps env role t =
      [.text
        (Int.fdiv ((KEY_SIZE : Int) -
          ((env.textbbox t (getFont env (if t.length ≤ 4 then 18 else 14))).x1 -
            (env.textbbox t (getFont env (if t.length ≤ 4 then 18 else 14))).x0)) 2)
        (Int.fdiv ((KEY_SIZE : Int) -
          ((env.textbbox t (getFont env (if t.length ≤ 4 then 18 else 14))).y1 -
            (env.textbbox t (getFont env (if t.length ≤ 4 then 18 else 14))).y0)) 2)
        t ICON_COLOR (getFont env (if t.length ≤ 4 then 18 else 14))] := by
  simp only [glyphRoles, List.mem_cons, List.not_mem_nil, or_false] at h
  push_neg at h
  obtain ⟨h1, h2, h3, h4, h5, h6⟩ := h
  unfold controlFallbackOps
  rw [if_neg h1, if_neg h2, if_neg h3, if_neg h4, if_neg h5, if_neg h6]

theorem paste_svg_icon_eq (env : Env) (img : Image) (svg : String)
    (hP : env.hasPIL = true) :
    paste_svg_icon env img svg =
      match env.sips svg 44 with
      | none => none
      | some icon => some { img with ops := img.ops ++
          [.composite icon.content icon.width icon.height
            (Int.fdiv ((KEY_SIZE : Int) - icon.width) 2)
            (Int.fdiv ((KEY_SIZE : Int) - icon.height) 2)] } := by
  unfold paste_svg_icon
  simp only [hP, if_true]

theorem render_control_mode_cases (env : Env) (role label : String)
    (hP : env.hasPIL = true) (hne : role ≠ "idle") :
    render_control_mode env role label =
      match resolve_control_icon_svg env role with
      | some svg =>
        match env.sips svg 44 with
        | some icon => pastedOutput icon
        | none => fallbackOutput env role label
      | none => fallbackOutput env role label := by
  unfold render_control_mode
  simp only [hP, if_true, hne, if_false]
  rcases resolve_control_icon_svg env role with _ | svg
  · rfl
  · show (match paste_svg_icon env blackCanvas svg with
      | some img => (0, some (FileData.png img))
      | none => fallbackOutput env role label) =
      (match env.sips svg 44 with
      | some icon => pastedOutput icon
      | none => fallbackOutput env role label)
    rw [paste_svg_icon_eq env blackCanvas svg hP]
    rcases env.sips svg 44 with _ | icon <;> rfl

theorem fallbackOutput_label_irrelevant (env : Env) (role l1 l2 : String)
    (h : role ∈ glyphRoles) :
    fallbackOutput env role l1 = fallbackOutput env role l2 := by
  simp only [fallbackOutput]
  rw [controlFallbackOps_glyph env role
    (if l1 = "" then default_control_label role else l1)
    (if l2 = "" then default_control_label role else l2) h]

/-- Claim C10: with the raster library available, the label only
affects the text-fallback path: output is label-independent for every
glyph-set role and for every role whose vector icon is resolved and
rasterized; a role outside the glyph set with no pasted icon draws a
single centered text operation whose string is the label, or the role's
default label when the label is empty. -/
theorem control_label_influence :
    ∀ env : Env, env.hasPIL = true →
      ((∀ role l1 l2, role ∈ glyphRoles →
        render_control_mode env role l1 = render_control_mode env role l2) ∧
      (∀ role svg l1 l2, resolve_control_icon_svg env role = some svg →
        (env.sips svg 44).isSome = true →
        render_control_mode env role l1 = render_control_mode env role l2) ∧
      (∀ role label, role ∉ glyphRoles → role ≠ "idle" →
        (∀ svg, resolve_control_icon_svg env role = some svg →
          env.sips svg 44 = none) →
        ∃ x y font, render_control_mode env role label =
          (0, some (.png { blackCanvas with ops :=
            [DrawOp.text x y
              (if label = "" then default_control_label role else label)
              ICON_COLOR font] })))) := by
  intro env hP
  refine ⟨?_, ?_, ?_⟩
  · intro role l1 l2 hrole
    have hne : role ≠ "idle" := by
      simp [glyphRoles] at hrole
      rcases hrole with rfl | rfl | rfl | rfl | rfl | rfl <;> decide
    rw [render_control_mode_cases env role l1 hP hne,
      render_control_mode_cases env role l2 hP hne,
      fallbackOutput_label_irrelevant env role l1 l2 hrole]
  · intro role svg l1 l2 hres hs
    by_cases hne : role = "idle"
    · rw [hne] at hres
      simp [resolve_control_icon_svg, CONTROL_ICON_FILES] at hres
    · rw [render_control_mode_cases env role l1 hP hne,
        render_control_mode_cases env role l2 hP hne, hres]
      obtain ⟨icon, hicon⟩ := Option.isSome_iff_exists.mp hs
      show (match env.sips svg 44 with
        | some icon => pastedOutput icon
        | none => fallbackOutput env role l1) =
        (match env.sips svg 44 with
        | some icon => pastedOutput icon
        | none => fallbackOutput env role l2)
      rw [hicon]
  · intro role label hrole hne hfail
    have hh := controlFallbackOps_nonglyph env role
      (if label = "" then default_control_label role else label) hrole
    have key : render_control_mode env role label =
        fallbackOutput env role label := by
      rw [render_control_mode_cases env role label hP hne]
      rcases hres : resolve_control_icon_svg env role with _ | svg
      · rfl
      · show (match env.sips svg 44 with
          | some icon => pastedOutput icon
          | none => fallbackOutput env role label) =
          fallbackOutput env role label
        rw [hfail svg hres]
    simp only [fallbackOutput] at key
    rw [hh] at key
    exact ⟨_, _, _, key⟩

/-- Witness for C1 at a concrete environment with the raster library. -/
theorem control_mode_exit_codes_witness :
    envFull.hasPIL = true ∧
    (script_main envFull ["p", "control", "home", "L", "out"]).1 = 0 :=
  ⟨rfl, control_mode_exit_codes.1 envFull "p" "home" "L" "out" [] rfl⟩

/-- Counterexample to C1 as stated: with the raster library unavailable
and no icon source obtainable, a well-formed control invocation exits 2,
not 0. -/
theorem control_mode_exit_codes_counterexample :
    script_main envNoIcons ["p", "control", "home", "L", "out"] = (2, none) ∧
    (2 : Nat) ≠ 0 ∧ (2 : Nat) ≠ 1 :=
  ⟨by decide, by decide, by decide⟩

/-- Witness for C3 at a concrete successful app render. -/
theorem success_output_dimensions_witness :
    envFull.hasPIL = true ∧
    script_main envFull ["p", "app", "/A.app", "", "1", "out"] =
      (0, some ("out", .png ⟨72, 72, "RGBA", .fromRaster 5, [ringOp]⟩)) ∧
    outputIs72RGBA (.png ⟨72, 72, "RGBA", .fromRaster 5, [ringOp]⟩) = true :=
  ⟨rfl, by decide,
    success_output_dimensions.1 envFull ["p", "app", "/A.app", "", "1", "out"]
      "out" (.png ⟨72, 72, "RGBA", .fromRaster 5, [ringOp]⟩) rfl (by decide)⟩

/-- Counterexample to C3 as stated: on the degraded no-raster-library
path the rasterized file is copied unmodified, and with an aspect-fit
72x36 RGB rasterizer output the exit is still 0 while the written file is
not a 72x72 RGBA image. -/
theorem success_output_dimensions_counterexample :
    script_main envCopyOnly ["p", "app", "/A.app", "", "0", "out"] =
      (0, some ("out", .raw ⟨72, 36, "RGB", 9⟩)) ∧
    outputIs72RGBA (.raw ⟨72, 36, "RGB", 9⟩) = false :=
  ⟨by decide, by decide⟩

/-- Witness for C4 at a concrete short app invocation. -/
theorem malformed_args_exit1_witness :
    script_main envFull ["p", "app", "x"] = (1, none) :=
  malformed_args_exit1 envFull ["p", "app", "x"]
    (Or.inr (Or.inl ⟨rfl, by decide⟩))

/-- Counterexample to C4 as stated: an app invocation with seven
arguments (one more than the declared exact count) is not rejected: it
exits 0 and writes an output file. -/
theorem malformed_args_exit1_counterexample :
    (["p", "app", "/A.app", "1", "0", "out", "EXTRA"] : List String).length = 7 ∧
    (script_main envFull ["p", "app", "/A.app", "1", "0", "out", "EXTRA"]).1 = 0 ∧
    (script_main envFull ["p", "app", "/A.app", "1", "0", "out", "EXTRA"]).2.isSome = true :=
  ⟨by decide, by decide, by decide⟩

/-- Witness for C5 at a concrete environment with no obtainable icon. -/
theorem app_mode_no_icon_exit2_witness :
    script_main envNoIcons ["p", "app", "/A.app", "b", "0", "out"] = (2, none) :=
  app_mode_no_icon_exit2 envNoIcons "p" "/A.app" "b" "0" "out" []
    (fun _ h => Option.noConfusion h) (Or.inl rfl)

/-- Witness for C6 at a concrete selected render with an empty badge. -/
theorem selection_ring_iff_selected_witness :
    envFull.hasPIL = true ∧
    script_main envFull ["p", "app", "/A.app", "", "1", "out"] =
      (0, some ("out", .png imgRingW)) ∧
    (ringOp ∈ imgRingW.ops ↔ "1" = "1") :=
  ⟨rfl, by decide,
    selection_ring_iff_selected envFull "p" "/A.app" "" "1" "out" [] imgRingW
      rfl (by decide)⟩

/-- Witness for C7 at badge "1" on the black canvas. -/
theorem draw_badge_spec_witness :
    ("1" : String) ≠ "" ∧
    draw_badge envFull blackCanvas "1" =
      { blackCanvas with ops := blackCanvas.ops ++ drawBadgeSpecOps envFull "1" } :=
  ⟨by decide, (draw_badge_spec envFull blackCanvas "1").2 (by decide)⟩

/-- Witness for C8 at a concrete idle render. -/
theorem control_idle_black_witness :
    envFull.hasPIL = true ∧
    script_main envFull ["p", "control", "idle", "L", "out"] =
      (0, some ("out", .png ⟨72, 72, "RGBA", .solid ⟨0, 0, 0, 255⟩, []⟩)) :=
  ⟨rfl, control_idle_black envFull "p" "L" "out" [] rfl⟩

/-- Counterexample to C8 as stated: with the raster library unavailable,
an idle render degrades to the copied generic icon (here a 72x36 RGB
raster), not a solid black canvas. -/
theorem control_idle_black_counterexample :
    script_main envCopyOnly ["p", "control", "idle", "L", "out"] =
      (0, some ("out", .raw ⟨72, 36, "RGB", 9⟩)) ∧
    FileData.raw ⟨72, 36, "RGB", 9⟩ ≠
      FileData.png ⟨72, 72, "RGBA", .solid ⟨0, 0, 0, 255⟩, []⟩ :=
  ⟨by decide, by decide⟩

/-- Witness for C10: a glyph-set role renders identically under two
different labels. -/
theorem control_label_influence_witness :
    render_control_mode envFull "page_prev" "A" =
      render_control_mode envFull "page_prev" "B" :=
  (control_label_influence envFull rfl).1 "page_prev" "A" "B" (by decide)
